import Mathlib

/-!
Verification of the metadata-resolver layer of `umake/frameworks/ide.py`
(ubuntu-make, IDE frameworks).

The Python module is embedded shallowly:

* pure data (`Checksum`, `DownloadItem`, download results) become Lean
  structures;
* each resolver callback (`get_metadata_and_check_license`,
  `download_provider_page`'s inner `done`, `prepare_to_download_archive`,
  `parse_download_page_callback`, ...) becomes a Lean function from its
  inputs to an `Outcome`;
* `UI.return_main_screen(status_code=1)` is the `Outcome.abort` constructor
  (modelled from the spec, see below); an uncaught Python exception
  (IndexError, AttributeError, UnboundLocalError) is `Outcome.crash`;
  reaching `self.start_download_and_install()` with the accumulated
  `download_requests` is `Outcome.ok`.

HTML parsing by BeautifulSoup is external to the repository; a parsed page
is embedded as a `Soup` value (its anchors and buttons in document order),
and `soup.find` becomes `List.find?` over that list.
-/

namespace UMake

/-- `ChecksumType` from `umake.tools`: the digest algorithms used by the
tool definitions in `ide.py` (md5 for Eclipse, Arduino and NetBeans,
sha256 for the JetBrains family). -/
inductive ChecksumType where
  | md5
  | sha256
  deriving DecidableEq, Repr

/-- `Checksum` from `umake.tools`: an (algorithm, digest) pair attached to
a download request. -/
structure Checksum where
  checksum_type : ChecksumType
  checksum_value : String
  deriving DecidableEq, Repr

/-- `DownloadItem` from `umake.network.download_center`: a download request
with url, optional expected checksum, optional cookies, and the
ignore-server-encoding flag. -/
structure DownloadItem where
  url : String
  checksum : Option Checksum
  cookies : Option String
  ignore_encoding : Bool
  deriving DecidableEq, Repr

/-- An anchor element of a vendor page, as used through
`soup.find('a', ...)`: its visible text and its href attribute. -/
structure Anchor where
  text : String
  href : String
  deriving DecidableEq, Repr

/-- A button element of a vendor page, as used through
`soup.find('button', ...)` followed by `btn.parent['href']` in
`Arduino.prepare_to_download_archive`: its visible text and the href of
its parent element. -/
structure Button where
  text : String
  parentHref : String
  deriving DecidableEq, Repr

/-- A vendor page parsed by BeautifulSoup (external library): its anchors
and buttons in document order. -/
structure Soup where
  anchors : List Anchor
  buttons : List Button
  deriving DecidableEq, Repr

/-- A per-url entry of the result dict passed by `DownloadCenter` to an
`on_done` callback: transport error (if any), the decoded text of the
buffer (`none` models a `None` buffer, whose use raises AttributeError),
the same buffer as parsed HTML, the final redirected url and response
cookies. -/
structure DownloadResult where
  error : Option String
  buffer : Option String
  soup : Soup
  final_url : String
  cookies : Option String
  deriving DecidableEq, Repr

/-- Modelled from the spec: `UI.return_main_screen(status_code=...)`
(in `umake.ui`, outside the given sources) terminates the failing stage
through the single abort exit point, so no code after the call runs; the
spec's exit contract makes every hard failure terminate with that status.
`Outcome.abort` embeds such a termination, `Outcome.crash` an uncaught
Python exception, and `Outcome.ok` the normal continuation of the
pipeline. -/
inductive Outcome (α : Type) where
  | abort (status_code : Nat)
  | crash (exc : String)
  | ok (value : α)
  deriving DecidableEq, Repr

/-- Grouping of a character list into its maximal non-whitespace runs,
accumulating the current run in reverse. Structural recursion keeps every
evaluation kernel-reducible. -/
def pyTokensAux : List Char → List Char → List String
  | [], cur => if cur == [] then [] else [String.mk cur.reverse]
  | c :: cs, cur =>
    if c.isWhitespace then
      if cur == [] then pyTokensAux cs []
      else String.mk cur.reverse :: pyTokensAux cs []
    else pyTokensAux cs (c :: cur)

/-- Python `str.split()` with no separator: split on whitespace runs,
dropping empty pieces. -/
def pySplit (s : String) : List String :=
  pyTokensAux s.toList []

/-- `s.split()[0]`: the first whitespace-delimited token of `s`, `none`
when Python would raise IndexError. -/
def firstToken (s : String) : Option String :=
  (pySplit s).head?

/-- Splitting a character list on a nonempty separator, with enough fuel
to cover the whole input (each recursive call consumes at least one
character of a nonempty list). -/
def splitOnCharsAux (sep : List Char) : Nat → List Char → List Char → List (List Char)
  | 0, cs, cur => [cur.reverse ++ cs]
  | Nat.succ fuel, cs, cur =>
    match cs with
    | [] => [cur.reverse]
    | c :: rest =>
      if (c :: rest).take sep.length == sep then
        cur.reverse :: splitOnCharsAux sep fuel ((c :: rest).drop sep.length) []
      else splitOnCharsAux sep fuel rest (c :: cur)

/-- Python `s.split(sep)` for a nonempty literal separator (also the
semantics of Lean's `String.splitOn`). -/
def pySplitOn (s sep : String) : List String :=
  (splitOnCharsAux sep.toList (s.toList.length + 1) s.toList []).map String.mk

/-- Python `pattern in s` / `re.search` of a literal pattern: substring
test (for nonempty `pat`). -/
def strContains (s pat : String) : Bool :=
  (pySplitOn s pat).length != 1

/-- Python `s.replace(old, new)` for nonempty `old`. -/
def pyReplace (s old new : String) : String :=
  String.intercalate new (pySplitOn s old)

/-- Python `str.strip()`: trim whitespace from both ends. -/
def pyStrip (s : String) : String :=
  String.mk ((((s.toList.dropWhile Char.isWhitespace).reverse).dropWhile
    Char.isWhitespace).reverse)

/-- `s.startswith(pre)` over the underlying characters. -/
def strStartsWith (s pre : String) : Bool :=
  s.toList.take pre.toList.length == pre.toList

/-- `soup.find('a', text=t)`: the first anchor whose text is exactly `t`,
or `None`. -/
def soupFindAnchorText (s : Soup) (t : String) : Option Anchor :=
  s.anchors.find? (fun a => a.text == t)

/-! ## The Eclipse resolver -/

/-- `Eclipse.DOWNLOAD_URL_PAT.format(arch=..., suf=...)` from `ide.py`. -/
def DOWNLOAD_URL_PAT (arch suf : String) : String :=
  "https://www.eclipse.org/downloads/download.php?" ++
  "file=/technology/epp/downloads/release/luna/R/" ++
  "eclipse-standard-luna-R-linux-gtk" ++ arch ++ ".tar.gz" ++ suf ++
  "&r=1"

/-- The architecture dispatch at the head of
`Eclipse.download_provider_page`: the md5 url for a recognized
`platform.machine()`, an abort with status 1 otherwise. -/
def eclipseMd5Url (arch : String) : Outcome String :=
  if arch == "i686" then .ok (DOWNLOAD_URL_PAT "" ".md5")
  else if arch == "x86_64" then .ok (DOWNLOAD_URL_PAT "-x86_64" ".md5")
  else .abort 1

/-- The inner `done` callback of `Eclipse.download_provider_page`: on a
transport error abort; otherwise take the first whitespace-delimited token
of the md5 body (IndexError on an empty body, AttributeError on a `None`
buffer) and emit the archive `DownloadItem` carrying it as md5 checksum. -/
def eclipseDone (arch : String) (res : DownloadResult) : Outcome DownloadItem :=
  if res.error.isSome then .abort 1
  else
    match res.buffer with
    | none => .crash "AttributeError"
    | some body =>
      match firstToken body with
      | none => .crash "IndexError"
      | some md5 =>
        if arch == "i686" then
          .ok ⟨DOWNLOAD_URL_PAT "" "", some ⟨ChecksumType.md5, md5⟩, none, false⟩
        else if arch == "x86_64" then
          .ok ⟨DOWNLOAD_URL_PAT "-x86_64" "", some ⟨ChecksumType.md5, md5⟩, none, false⟩
        else .crash "UnboundLocalError"

/-! ## The JetBrains resolvers -/

/-- `BaseJetBrains.get_metadata_and_check_license` up to the nested fetch:
abort on a transport error; find the anchor labelled HTTPS (abort when it
is missing); return the download url together with the checksum url
(`download_url + ".sha256"`) whose fetch is started next. No
`DownloadItem` is produced at this stage. -/
def get_metadata_and_check_license_jetbrains (page : DownloadResult) :
    Outcome (String × String) :=
  if page.error.isSome then .abort 1
  else
    match soupFindAnchorText page.soup "HTTPS" with
    | none => .abort 1
    | some link =>
      .ok (link.href, link.href ++ ".sha256")

/-- The nested `checksum_downloaded` callback of
`BaseJetBrains.get_metadata_and_check_license`: abort on a transport
error; otherwise the checksum is the first whitespace-delimited token of
the fetched body (IndexError on an empty body, AttributeError on a `None`
buffer), and the archive `DownloadItem` is emitted with it as sha256
checksum and `ignore_encoding=True`. -/
def checksum_downloaded (download_url : String) (res : DownloadResult) :
    Outcome DownloadItem :=
  if res.error.isSome then .abort 1
  else
    match res.buffer with
    | none => .crash "AttributeError"
    | some body =>
      match firstToken body with
      | none => .crash "IndexError"
      | some cks =>
        .ok ⟨download_url, some ⟨ChecksumType.sha256, cks⟩, none, true⟩

/-! ## Resolver sessions as state machines

The nested-callback structure of the JetBrains and Eclipse resolvers is a
two-stage machine: the session waits for the vendor page (JetBrains) or
starts from the architecture dispatch (Eclipse), then waits for the
checksum fetch, and only the transition consuming the checksum result can
move to `downloading` (the point where `start_download_and_install` runs
with the accumulated `download_requests`). -/

/-- The stages of a JetBrains or Eclipse resolver session.
`awaitingChecksum ctx` carries the context remembered by the closure:
the scraped download url for JetBrains, the machine architecture for
Eclipse. -/
inductive ResolverState where
  | awaitingPage
  | awaitingChecksum (ctx : String)
  | failed (status_code : Nat)
  | crashed (exc : String)
  | downloading (download_requests : List DownloadItem)
  deriving DecidableEq, Repr

/-- One step of a JetBrains resolver session: the first fetched result is
the vendor page, the second the checksum body; terminal states ignore
further results. -/
def jbStep (s : ResolverState) (res : DownloadResult) : ResolverState :=
  match s with
  | .awaitingPage =>
    match get_metadata_and_check_license_jetbrains res with
    | .abort c => .failed c
    | .crash e => .crashed e
    | .ok urls => .awaitingChecksum urls.1
  | .awaitingChecksum durl =>
    match checksum_downloaded durl res with
    | .abort c => .failed c
    | .crash e => .crashed e
    | .ok item => .downloading [item]
  | t => t

/-- The state of an Eclipse session right after `download_provider_page`
dispatched on the architecture and requested the md5 fetch. -/
def eclipseStart (arch : String) : ResolverState :=
  match eclipseMd5Url arch with
  | .abort c => .failed c
  | .crash e => .crashed e
  | .ok _ => .awaitingChecksum arch

/-- One step of an Eclipse resolver session: the only pending fetch is the
md5 body, consumed by the inner `done` callback. -/
def eclipseStep (s : ResolverState) (res : DownloadResult) : ResolverState :=
  match s with
  | .awaitingChecksum arch =>
    match eclipseDone arch res with
    | .abort c => .failed c
    | .crash e => .crashed e
    | .ok item => .downloading [item]
  | t => t

/-! ## The Arduino resolver -/

/-- `Arduino.ARDUINO_GROUP`. -/
def ARDUINO_GROUP : String := "dialout"

/-- The character class of `[\d\.\-r]` in the Arduino download-link and
checksum patterns of `ide.py`. -/
def isVersionChar (c : Char) : Bool :=
  c.isDigit || c == '.' || c == '-' || c == 'r'

/-- The tail of the Arduino filename patterns after the version part:
`-linux<bits>` then one arbitrary character (the unescaped dot of
`.tar.xz`) then `tar.xz`, consuming the whole remaining input. -/
def arduinoAfterVer (bits : String) (cs : List Char) : Bool :=
  let pre := ("-linux" ++ bits).toList
  let suf := "tar.xz".toList
  (cs.take pre.length == pre) &&
  (match cs.drop pre.length with
   | _ :: rest => rest == suf
   | [] => false)

/-- Matching of `arduino-[\d\.\-r]+-linux<bits>.tar.xz$` starting at the
head of `cs` and consuming everything up to the end of input (the `$`
anchor); the `+` is matched with backtracking over its length. -/
def arduinoFrom (bits : String) (cs : List Char) : Bool :=
  let hd := "arduino-".toList
  (cs.take hd.length == hd) &&
  (let body := cs.drop hd.length
   (List.range (body.length + 1)).any (fun k =>
     k != 0 && (body.take k).all isVersionChar && arduinoAfterVer bits (body.drop k)))

/-- `re.search` of the download-link pattern
`r'arduino-[\d\.\-r]+-linux' + bits + '.tar.xz$'` against an href, as
used by `soup.find('a', href=re.compile(download_link_pat))`: the pattern
matches some substring ending at the end of the href. -/
def arduinoLinkMatch (bits href : String) : Bool :=
  let cs := href.toList
  (List.range (cs.length + 1)).any (fun i => arduinoFrom bits (cs.drop i))

/-- One line of the Arduino checksum file against
`r'^(\S+)\s+arduino-[\d\.\-r]+-linux' + bits + '.tar.xz$'`: a nonempty
non-whitespace token, nonempty whitespace, then the archive filename up
to the end of the line; returns group 1 (the digest). -/
def checksumLineParse (bits line : String) : Option String :=
  let cs := line.toList
  let n := cs.length
  ((List.range (n + 1)).filterMap (fun i =>
    if i != 0 && (cs.take i).all (fun c => !c.isWhitespace) then
      ((List.range (n + 1)).filterMap (fun j =>
        if j != 0 && ((cs.drop i).take j).all Char.isWhitespace
            && arduinoFrom bits ((cs.drop i).drop j) then
          some (String.mk (cs.take i))
        else none)).head?
    else none)).head?

/-- `re.search(..., checksum_page..., re.M)` in
`Arduino.prepare_to_download_archive`: the first line of the body whose
whole content matches the anchored checksum pattern, yielding its
digest. -/
def findArduinoChecksum (bits body : String) : Option String :=
  ((pySplitOn body "\n").filterMap (checksumLineParse bits)).head?

/-- `soup.find('button', text=re.compile('JUST DOWNLOAD'))`: the first
button whose text contains the literal pattern. -/
def findJustDownloadButton (s : Soup) : Option Button :=
  s.buttons.find? (fun b => strContains b.text "JUST DOWNLOAD")

/-- Modelled from the spec: `urllib.parse.urljoin` (Python stdlib,
outside the repository) joins the page's final redirected url with a
possibly relative href; an absolute href is kept, otherwise it is
resolved against the base. The exact RFC 3986 resolution is abstracted to
the cases the resolver exercises. -/
def urljoin (base href : String) : String :=
  if strContains href "://" then href
  else if strStartsWith href "/" then
    match (pySplitOn base "/").take 3 with
    | [scheme, e, host] => scheme ++ "/" ++ e ++ "/" ++ host ++ href
    | _ => href
  else
    String.intercalate "/" ((pySplitOn base "/").dropLast) ++ "/" ++ href

/-- `Arduino.__init__` current-user selection: when the effective uid is
not 0 the `USER` environment variable is assigned first, but the next
statement unconditionally overwrites it with
`pwd.getpwuid(int(os.getenv("SUDO_UID", default=0))).pw_name`.
`pw_name` maps a uid to its account name (the passwd table). -/
def arduinoCurrentUser (euid : Nat) (userEnv : Option String)
    (sudoUid : Option Nat) (pw_name : Nat → String) : Option String :=
  let current_user : Option String := none
  let current_user := if euid != 0 then userEnv else current_user
  let current_user := some (pw_name (sudoUid.getD 0))
  current_user

/-- The group scan of `Arduino.__init__`: `was_in_arduino_group` is true
iff some group (name, members) of `grp.getgrall()` has the current user
among its members and is named `ARDUINO_GROUP`. -/
def wasInArduinoGroup (user : String) (groups : List (String × List String)) : Bool :=
  (((groups.filter (fun g => g.2.contains user)).map Prod.fst).filter
    (fun name => name == ARDUINO_GROUP)) != []

/-- The fields of an `Arduino` installer fixed by `__init__` that the
resolver stages read. -/
structure ArduinoInit where
  current_user : String
  was_in_arduino_group : Bool
  need_root_access : Bool
  bits : String
  deriving DecidableEq, Repr

/-- `Arduino.__init__`: the current user comes from `arduinoCurrentUser`,
`was_in_arduino_group` from the group scan, `need_root_access` is its
negation, and `bits` is 32 for machine `i686` and 64 for every other
machine string. -/
def arduinoInit (euid : Nat) (userEnv : Option String) (sudoUid : Option Nat)
    (pw_name : Nat → String) (groups : List (String × List String))
    (machine : String) : ArduinoInit :=
  let user := (arduinoCurrentUser euid userEnv sudoUid pw_name).getD ""
  let wasIn := wasInArduinoGroup user groups
  ⟨user, wasIn, !wasIn, if machine == "i686" then "32" else "64"⟩

/-- `Arduino.get_metadata_and_check_license`: abort on a transport error;
inside `suppress(TypeError)` scrape the download link (anchor with href
matching the Arduino pattern) and the Checksums anchor, prepending
`http:` to both only when both are found (a missing anchor raises the
suppressed TypeError at the subscript, leaving the remaining assignments
unexecuted); then abort if either scraped url is still unset, else
request both fetches. -/
def get_metadata_and_check_license_arduino (bits : String) (res : DownloadResult) :
    Outcome (String × String) :=
  if res.error.isSome then .abort 1
  else
    let scraped : Option String × Option String :=
      match res.soup.anchors.find? (fun a => arduinoLinkMatch bits a.href) with
      | none => (none, none)
      | some d =>
        match res.soup.anchors.find? (fun a => strContains a.text "Checksums") with
        | none => (some d.href, none)
        | some c => (some ("http:" ++ d.href), some ("http:" ++ c.href))
    match scraped.1 with
    | none => .abort 1
    | some durl =>
      match scraped.2 with
      | none => .abort 1
      | some curl => .ok (durl, curl)

/-- `_add_to_group`, run in the worker process: true when the `adduser`
invocation returns output, false when it raises CalledProcessError. -/
def add_to_group (adduser_result : Except String String) : Bool :=
  match adduser_result with
  | .ok _ => true
  | .error _ => false

/-- `Arduino.prepare_to_download_archive`: abort on a transport error of
either page; extract the digest from the checksum body (AttributeError on
a `None` buffer, abort when no line matches); find the JUST DOWNLOAD
button (abort when missing); build the single archive `DownloadItem`
whose url joins the download page's `final_url` with the button's parent
href and which carries that page's cookies and the md5 digest; then, when
the user was not already in the arduino group, run `_add_to_group` in the
worker and abort with status 1 when it returns false; finally start the
download. The boolean of the pair records whether the group worker was
spawned. -/
def prepare_to_download_archive (was_in_arduino_group : Bool) (bits : String)
    (download_page checksum_page : DownloadResult)
    (adduser_result : Except String String) :
    Outcome (List DownloadItem) × Bool :=
  if download_page.error.isSome then (.abort 1, false)
  else if checksum_page.error.isSome then (.abort 1, false)
  else
    match checksum_page.buffer with
    | none => (.crash "AttributeError", false)
    | some body =>
      match findArduinoChecksum bits body with
      | none => (.abort 1, false)
      | some checksum =>
        match findJustDownloadButton download_page.soup with
        | none => (.abort 1, false)
        | some btn =>
          let final_download_url := urljoin download_page.final_url btn.parentHref
          let download_requests :=
            [DownloadItem.mk final_download_url
              (some ⟨ChecksumType.md5, checksum⟩) download_page.cookies false]
          if was_in_arduino_group then (.ok download_requests, false)
          else if add_to_group adduser_result then (.ok download_requests, true)
          else (.abort 1, true)

/-- The observable side effects of `Arduino.post_install`: the launcher
is always created, and the deferred "logout and login" notice is
displayed exactly when the user was not already in the arduino group. -/
structure ArduinoPostInstall where
  launcher_created : Bool
  delayed_logout_notice : Bool
  deriving DecidableEq, Repr

/-- `Arduino.post_install`. -/
def arduinoPostInstall (was_in_arduino_group : Bool) : ArduinoPostInstall :=
  ⟨true, !was_in_arduino_group⟩

/-! ## The NetBeans resolver -/

/-- `BaseNetBeans.BASE_URL`. -/
def BASE_URL : String := "http://download.netbeans.org/netbeans/"

/-- `BaseNetBeans.FALLBACK_VERSION`. -/
def FALLBACK_VERSION : String := "8.0.2"

/-- `re.match(".*/images_www/v6/download/.*", line)`: with the leading
and trailing `.*`, a line matches iff it contains the literal middle
part. -/
def netbeansVersionLineMatch (line : String) : Bool :=
  strContains line "/images_www/v6/download/"

/-- The cleanup applied to a matching version line in
`BaseNetBeans.get_metadata_and_check_license`: strip the
`var PAGE_ARTIFACTS_LOCATION = "/images_www/v6/download/` head and the
`/";` tail, then trim whitespace. -/
def netbeansCleanVersion (line : String) : String :=
  pyStrip (pyReplace (pyReplace line
      "var PAGE_ARTIFACTS_LOCATION = \"/images_www/v6/download/" "")
    "/\";" "")

/-- `BaseNetBeans.get_metadata_and_check_license`: reading a `None`
buffer raises the caught AttributeError and aborts; otherwise every line
containing the artifacts-location marker overwrites `self.version` with
its cleaned content (the loop keeps the last match); when the resulting
version is still empty the resolver logs a warning, substitutes
`FALLBACK_VERSION` and continues by requesting the versioned `files.js`
page. `initial_version` is the session's version field before the
callback (modelled from the spec: the InstallSession's resolved version
string starts out empty; `BaseInstaller` is outside the given
sources). -/
def get_metadata_and_check_license_netbeans (initial_version : String)
    (res : DownloadResult) : Outcome String :=
  match res.buffer with
  | none => .abort 1
  | some page =>
    let version := ((pySplitOn page "\n").filter netbeansVersionLineMatch).foldl
      (fun _ line => netbeansCleanVersion line) initial_version
    let version := if version == "" then FALLBACK_VERSION else version
    .ok version

/-- The `files.js` url requested after version resolution. -/
def netbeansVersionDownloadPage (version : String) : String :=
  "https://netbeans.org/images_www/v6/download/" ++ version ++ "/js/files.js"

/-- Literal-with-wildcard matching of a regex fragment whose only special
character is the unescaped dot (any single character): consumes `p`
against the head of `s` and returns the rest of `s` on success. Used for
the NetBeans `add_file` pattern, where the interpolated version's dots
and the dot of `.zip` are wildcards. -/
def regexLit (p s : List Char) : Option (List Char) :=
  match p, s with
  | [], rest => some rest
  | _ :: _, [] => none
  | pc :: pr, c :: cr => if pc == '.' || pc == c then regexLit pr cr else none

/-- `re.match('add_file\("zip/netbeans-' + version + '-[0-9]{12}' +
flavour + '.zip"', line)`: anchored at the start of the line, the literal
head (with the version's dots as wildcards), then exactly twelve digits,
then the flavour, then one arbitrary character and `zip"`. -/
def netbeansAddFileMatch (version flavour : String) (line : String) : Bool :=
  match regexLit ("add_file(\"zip/netbeans-" ++ version ++ "-").toList line.toList with
  | none => false
  | some r1 =>
    decide (12 ≤ r1.length) && (r1.take 12).all Char.isDigit &&
    (match regexLit (flavour ++ ".zip\"").toList (r1.drop 12) with
     | some _ => true
     | none => false)

/-- The cleanup applied to the matching `add_file(...)` line: remove the
call head, the `);` tail and every double quote. -/
def netbeansCleanLine (line : String) : String :=
  pyReplace (pyReplace (pyReplace line "add_file(" "") ");" "") "\"" ""

/-- `BaseNetBeans.parse_download_page_callback`: reading a `None` buffer
raises the caught AttributeError and aborts; every line matching the
`add_file` pattern overwrites the local `url_string` (last match wins),
so with zero matching lines the `if not url_string` guard reads an
unassigned local and raises an uncaught UnboundLocalError; otherwise the
cleaned line is split on comma-space, entries 0 and 2 become the url
suffix and the md5 digest (a too-short split raises the caught IndexError
and aborts), and the archive `DownloadItem` is emitted against
`BASE_URL`. -/
def parse_download_page_callback (version flavour : String)
    (res : DownloadResult) : Outcome DownloadItem :=
  match res.buffer with
  | none => .abort 1
  | some url_file =>
    match ((pySplitOn url_file "\n").filter (netbeansAddFileMatch version flavour)).getLast? with
    | none => .crash "UnboundLocalError"
    | some line =>
      let url_string := netbeansCleanLine line
      if url_string == "" then .abort 1
      else
        let string_array := pySplitOn url_string ", "
        match string_array.get? 0, string_array.get? 2 with
        | some url_suffix, some md5 =>
          .ok ⟨BASE_URL ++ version ++ "/final/" ++ url_suffix,
               some ⟨ChecksumType.md5, md5⟩, none, false⟩
        | _, _ => .abort 1

/-! ## Helper lemmas -/

/-- `soup.find` semantics: the anchor returned by `List.find?` is the head
of the list of all matching anchors, so a resolver built on `find?` sees
only the first of possibly many matches. -/
theorem find_eq_head_of_filter {α : Type} (p : α → Bool) (l : List α) :
    l.find? p = (l.filter p).head? := by
  induction l with
  | nil => rfl
  | cons x xs ih =>
    cases h : p x with
    | true => rw [List.find?_cons_of_pos _ h, List.filter_cons_of_pos h]; rfl
    | false => rw [List.find?_cons_of_neg _ (by simp [h]), List.filter_cons_of_neg (by simp [h]), ih]

/-! ## Claim theorems -/

/-- C1: in both nested-checksum resolvers (the JetBrains family and
Eclipse), the step consuming the vendor page (resp. the architecture
dispatch) never produces the downloading state, and whenever a resolver
session reaches the downloading state by consuming the nested checksum
fetch, the single archive DownloadItem it starts carries as digest the
first whitespace-delimited token of the decoded body of that fetch (sha256
for JetBrains, md5 for Eclipse). -/
theorem checksum_fetch_precedes_archive_download :
    (∀ pg : DownloadResult,
      (∃ c, jbStep ResolverState.awaitingPage pg = ResolverState.failed c) ∨
      (∃ e, jbStep ResolverState.awaitingPage pg = ResolverState.crashed e) ∨
      (∃ u, jbStep ResolverState.awaitingPage pg = ResolverState.awaitingChecksum u)) ∧
    (∀ (u : String) (res : DownloadResult) (items : List DownloadItem),
      jbStep (ResolverState.awaitingChecksum u) res = ResolverState.downloading items →
      ∃ body cks, res.buffer = some body ∧ firstToken body = some cks ∧
        items = [⟨u, some ⟨ChecksumType.sha256, cks⟩, none, true⟩]) ∧
    (∀ arch : String,
      (∃ c, eclipseStart arch = ResolverState.failed c) ∨
      (∃ u, eclipseStart arch = ResolverState.awaitingChecksum u)) ∧
    (∀ (arch : String) (res : DownloadResult) (items : List DownloadItem),
      eclipseStep (ResolverState.awaitingChecksum arch) res = ResolverState.downloading items →
      ∃ body cks, res.buffer = some body ∧ firstToken body = some cks ∧
        ∃ item, items = [item] ∧ item.checksum = some ⟨ChecksumType.md5, cks⟩) := by
  refine ⟨?_, ?_, ?_, ?_⟩
  · intro pg
    rcases pg with ⟨err, buf, soup, fu, ck⟩
    cases err with
    | some e => exact Or.inl ⟨1, rfl⟩
    | none =>
      cases h : soupFindAnchorText soup "HTTPS" with
      | none =>
        refine Or.inl ⟨1, ?_⟩
        simp [jbStep, get_metadata_and_check_license_jetbrains, h]
      | some link =>
        refine Or.inr (Or.inr ⟨link.href, ?_⟩)
        simp [jbStep, get_metadata_and_check_license_jetbrains, h]
  · intro u res items hstep
    rcases res with ⟨err, buf, soup, fu, ck⟩
    cases err with
    | some e => simp [jbStep, checksum_downloaded] at hstep
    | none =>
      cases buf with
      | none => simp [jbStep, checksum_downloaded] at hstep
      | some body =>
        cases h : firstToken body with
        | none => simp [jbStep, checksum_downloaded, h] at hstep
        | some cks =>
          simp [jbStep, checksum_downloaded, h] at hstep
          exact ⟨body, cks, rfl, h, hstep.symm⟩
  · intro arch
    by_cases h1 : arch = "i686"
    · subst h1; exact Or.inr ⟨"i686", rfl⟩
    · by_cases h2 : arch = "x86_64"
      · subst h2; exact Or.inr ⟨"x86_64", rfl⟩
      · refine Or.inl ⟨1, ?_⟩
        simp [eclipseStart, eclipseMd5Url, h1, h2]
  · intro arch res items hstep
    rcases res with ⟨err, buf, soup, fu, ck⟩
    cases err with
    | some e => simp [eclipseStep, eclipseDone] at hstep
    | none =>
      cases buf with
      | none => simp [eclipseStep, eclipseDone] at hstep
      | some body =>
        cases h : firstToken body with
        | none => simp [eclipseStep, eclipseDone, h] at hstep
        | some md5 =>
          by_cases h1 : arch = "i686"
          · subst h1
            simp [eclipseStep, eclipseDone, h] at hstep
            exact ⟨body, md5, rfl, h,
              ⟨⟨DOWNLOAD_URL_PAT "" "", some ⟨ChecksumType.md5, md5⟩, none, false⟩,
                hstep.symm, rfl⟩⟩
          · by_cases h2 : arch = "x86_64"
            · subst h2
              simp [eclipseStep, eclipseDone, h] at hstep
              exact ⟨body, md5, rfl, h,
                ⟨⟨DOWNLOAD_URL_PAT "-x86_64" "", some ⟨ChecksumType.md5, md5⟩, none, false⟩,
                  hstep.symm, rfl⟩⟩
            · simp [eclipseStep, eclipseDone, h, h1, h2] at hstep

/-- Witness for C1: a JetBrains session that received the checksum body
"deadbeef  a.tar.gz" starts exactly the archive download whose sha256
digest is "deadbeef". -/
theorem checksum_fetch_precedes_archive_download_witness :
    ∃ body cks,
      (DownloadResult.mk none (some "deadbeef  a.tar.gz") ⟨[], []⟩ "u" none).buffer = some body ∧
      firstToken body = some cks ∧
      [DownloadItem.mk "https://x/a.tar.gz" (some ⟨ChecksumType.sha256, "deadbeef"⟩) none true] =
        [DownloadItem.mk "https://x/a.tar.gz" (some ⟨ChecksumType.sha256, cks⟩) none true] :=
  checksum_fetch_precedes_archive_download.2.1 "https://x/a.tar.gz"
    (DownloadResult.mk none (some "deadbeef  a.tar.gz") ⟨[], []⟩ "u" none)
    [DownloadItem.mk "https://x/a.tar.gz" (some ⟨ChecksumType.sha256, "deadbeef"⟩) none true]
    (by decide)

/-- C2 counterexample: when the NetBeans download page contains no line
naming the artifacts location, the resolver does not abort: it substitutes
the hard-coded fallback version 8.0.2 and continues the pipeline. -/
theorem netbeans_fallback_counterexample :
    get_metadata_and_check_license_netbeans ""
      (DownloadResult.mk none (some "var x = 1;") ⟨[], []⟩ "u" none) =
      Outcome.ok FALLBACK_VERSION := by decide

/-- C2 amended: an unreadable buffer aborts both NetBeans resolution
stages with status 1, but when the version cannot be determined from a
readable page the NetBeans resolver substitutes the fallback version
8.0.2 and continues instead of aborting. -/
theorem metadata_error_abort_amended :
    (∀ (v : String) (res : DownloadResult), res.buffer = none →
      get_metadata_and_check_license_netbeans v res = Outcome.abort 1) ∧
    (∀ (version flavour : String) (res : DownloadResult), res.buffer = none →
      parse_download_page_callback version flavour res = Outcome.abort 1) ∧
    (∀ (res : DownloadResult) (page : String), res.buffer = some page →
      (pySplitOn page "\n").filter netbeansVersionLineMatch = [] →
      get_metadata_and_check_license_netbeans "" res = Outcome.ok FALLBACK_VERSION) := by
  refine ⟨?_, ?_, ?_⟩
  · intro v res h
    rcases res with ⟨err, buf, soup, fu, ck⟩
    cases buf with
    | none => rfl
    | some b => exact absurd h (by simp)
  · intro version flavour res h
    rcases res with ⟨err, buf, soup, fu, ck⟩
    cases buf with
    | none => rfl
    | some b => exact absurd h (by simp)
  · intro res page h hfil
    rcases res with ⟨err, buf, soup, fu, ck⟩
    cases buf with
    | none => exact absurd h (by simp)
    | some b =>
      have hb : b = page := by injection h
      subst hb
      simp [get_metadata_and_check_license_netbeans, hfil]

/-- Witness for C2's amended statement: the concrete versionless page
makes the resolver continue with version 8.0.2. -/
theorem metadata_error_abort_amended_witness :
    get_metadata_and_check_license_netbeans ""
      (DownloadResult.mk none (some "var y = 2;") ⟨[], []⟩ "u" none) =
      Outcome.ok FALLBACK_VERSION :=
  metadata_error_abort_amended.2.2
    (DownloadResult.mk none (some "var y = 2;") ⟨[], []⟩ "u" none)
    "var y = 2;" rfl (by decide)

/-- C3 counterexample: a JetBrains download page with two anchors
labelled HTTPS is not treated as ambiguous: the resolver proceeds with
the first match instead of aborting. -/
theorem first_match_counterexample :
    get_metadata_and_check_license_jetbrains
      (DownloadResult.mk none (some "<html>")
        ⟨[⟨"HTTPS", "https://a"⟩, ⟨"HTTPS", "https://b"⟩], []⟩ "u" none) =
      Outcome.ok ("https://a", "https://a.sha256") := by decide

/-- C3 amended: pattern extraction fails closed on zero matches (the
JetBrains anchor search and the Arduino link scrape abort with status 1),
but more-than-expected matches are not detected: the resolver proceeds
with the first matching anchor. -/
theorem pattern_extraction_amended :
    (∀ res : DownloadResult, res.error = none →
      res.soup.anchors.filter (fun x => x.text == "HTTPS") = [] →
      get_metadata_and_check_license_jetbrains res = Outcome.abort 1) ∧
    (∀ (res : DownloadResult) (a : Anchor) (rest : List Anchor), res.error = none →
      res.soup.anchors.filter (fun x => x.text == "HTTPS") = a :: rest →
      get_metadata_and_check_license_jetbrains res = Outcome.ok (a.href, a.href ++ ".sha256")) ∧
    (∀ (bits : String) (res : DownloadResult), res.error = none →
      res.soup.anchors.filter (fun x => arduinoLinkMatch bits x.href) = [] →
      get_metadata_and_check_license_arduino bits res = Outcome.abort 1) := by
  refine ⟨?_, ?_, ?_⟩
  · intro res he hf
    rcases res with ⟨err, buf, ⟨anchors, buttons⟩, fu, ck⟩
    cases err with
    | some e => exact absurd he (by simp)
    | none =>
      simp only [get_metadata_and_check_license_jetbrains, soupFindAnchorText,
        find_eq_head_of_filter] at *
      simp [hf]
  · intro res a rest he hf
    rcases res with ⟨err, buf, ⟨anchors, buttons⟩, fu, ck⟩
    cases err with
    | some e => exact absurd he (by simp)
    | none =>
      simp only [get_metadata_and_check_license_jetbrains, soupFindAnchorText,
        find_eq_head_of_filter] at *
      simp [hf]
  · intro bits res he hf
    rcases res with ⟨err, buf, ⟨anchors, buttons⟩, fu, ck⟩
    cases err with
    | some e => exact absurd he (by simp)
    | none =>
      simp only [get_metadata_and_check_license_arduino,
        find_eq_head_of_filter] at *
      simp [hf]

/-- Witness for C3's amended statement: on a page whose only matching
anchor list is the two HTTPS anchors, the resolver returns the first
anchor's url. -/
theorem pattern_extraction_amended_witness :
    get_metadata_and_check_license_jetbrains
      (DownloadResult.mk none (some "<html>")
        ⟨[⟨"HTTPS", "https://first"⟩, ⟨"HTTPS", "https://second"⟩], []⟩ "u" none) =
      Outcome.ok ("https://first", "https://first" ++ ".sha256") :=
  pattern_extraction_amended.2.1
    (DownloadResult.mk none (some "<html>")
      ⟨[⟨"HTTPS", "https://first"⟩, ⟨"HTTPS", "https://second"⟩], []⟩ "u" none)
    ⟨"HTTPS", "https://first"⟩ [⟨"HTTPS", "https://second"⟩] rfl (by decide)

/-- C4: zero-match behaviour of the three resolvers at concrete pages:
the JetBrains anchor search and the Arduino link scrape abort with
status 1 without requesting the archive, but the NetBeans
`parse_download_page_callback`, on a `files.js` with no matching
`add_file` line, raises an uncaught UnboundLocalError (its own guard
`if not url_string` reads a local that was never assigned) instead of
reaching its diagnostic-and-abort branch. -/
theorem zero_match_paths_eval :
    get_metadata_and_check_license_jetbrains
      (DownloadResult.mk none (some "<html></html>")
        ⟨[⟨"Download", "https://x"⟩], []⟩ "u" none) = Outcome.abort 1 ∧
    get_metadata_and_check_license_arduino "64"
      (DownloadResult.mk none (some "<html></html>")
        ⟨[⟨"Download", "https://x"⟩], []⟩ "u" none) = Outcome.abort 1 ∧
    parse_download_page_callback "8.0.2" ""
      (DownloadResult.mk none (some "var x = 1;") ⟨[], []⟩ "u" none) =
      Outcome.crash "UnboundLocalError" :=
  ⟨by decide, by decide, by decide⟩

/-- C5: when the invoking user is not in the arduino group and the group
helper reports failure, the prepare stage aborts with status 1 whenever
the helper actually ran, and in no case does it start the archive
download (its outcome is an abort or an earlier crash, never `ok`), so
extraction and post_install are never reached. -/
theorem arduino_group_failure_aborts :
    ∀ (bits : String) (dp cp : DownloadResult) (err : String),
      ((prepare_to_download_archive false bits dp cp (Except.error err)).2 = true →
        (prepare_to_download_archive false bits dp cp (Except.error err)).1 =
          Outcome.abort 1) ∧
      ((prepare_to_download_archive false bits dp cp (Except.error err)).1 =
          Outcome.abort 1 ∨
        (prepare_to_download_archive false bits dp cp (Except.error err)).1 =
          Outcome.crash "AttributeError") := by
  intro bits dp cp err
  rcases dp with ⟨derr, dbuf, dsoup, dfu, dck⟩
  rcases cp with ⟨cerr, cbuf, csoup, cfu, cck⟩
  cases derr with
  | some e => exact ⟨fun h => Bool.noConfusion h, Or.inl rfl⟩
  | none =>
    cases cerr with
    | some e => exact ⟨fun h => Bool.noConfusion h, Or.inl rfl⟩
    | none =>
      cases cbuf with
      | none => exact ⟨fun h => Bool.noConfusion h, Or.inr rfl⟩
      | some body =>
        cases hc : findArduinoChecksum bits body with
        | none =>
          constructor
          · intro h
            simp [prepare_to_download_archive, hc] at h
          · left
            simp [prepare_to_download_archive, hc]
        | some cks =>
          cases hb : findJustDownloadButton dsoup with
          | none =>
            constructor
            · intro h
              simp [prepare_to_download_archive, hc, hb] at h
            · left
              simp [prepare_to_download_archive, hc, hb]
          | some btn =>
            constructor
            · intro h
              simp [prepare_to_download_archive, hc, hb, add_to_group]
            · left
              simp [prepare_to_download_archive, hc, hb, add_to_group]

/-- Witness for C5: a concrete Arduino session whose pages parse, where
the helper runs and fails: the stage aborts with status 1. -/
theorem arduino_group_failure_aborts_witness :
    (prepare_to_download_archive false "64"
      (DownloadResult.mk none (some "")
        ⟨[], [⟨"JUST DOWNLOAD", "/download_handler.php"⟩]⟩
        "https://www.arduino.cc/en/Main/Software" (some "session=1"))
      (DownloadResult.mk none (some "bbb arduino-1.6.5-linux64.tar.xz") ⟨[], []⟩ "u" none)
      (Except.error "adduser failed")).1 = Outcome.abort 1 :=
  (arduino_group_failure_aborts "64"
    (DownloadResult.mk none (some "")
      ⟨[], [⟨"JUST DOWNLOAD", "/download_handler.php"⟩]⟩
      "https://www.arduino.cc/en/Main/Software" (some "session=1"))
    (DownloadResult.mk none (some "bbb arduino-1.6.5-linux64.tar.xz") ⟨[], []⟩ "u" none)
    "adduser failed").1 (by decide)

/-- C6 counterexample: an empty md5 body without a transport error makes
the Eclipse `done` callback raise an uncaught IndexError instead of
logging and aborting with status 1. -/
theorem eclipse_empty_checksum_counterexample :
    eclipseDone "x86_64" (DownloadResult.mk none (some "") ⟨[], []⟩ "u" none) =
      Outcome.crash "IndexError" := by decide

/-- C6 amended: every resolver callback aborts with status 1 on a
transport error and constructs no DownloadItem then, but an empty buffer
without a transport error is not uniformly handled: the Eclipse (and
JetBrains) checksum callbacks raise an uncaught IndexError on it. -/
theorem transport_error_abort_amended :
    (∀ res : DownloadResult, res.error.isSome = true →
      get_metadata_and_check_license_jetbrains res = Outcome.abort 1) ∧
    (∀ (u : String) (res : DownloadResult), res.error.isSome = true →
      checksum_downloaded u res = Outcome.abort 1) ∧
    (∀ (arch : String) (res : DownloadResult), res.error.isSome = true →
      eclipseDone arch res = Outcome.abort 1) ∧
    (∀ (bits : String) (res : DownloadResult), res.error.isSome = true →
      get_metadata_and_check_license_arduino bits res = Outcome.abort 1) ∧
    (∀ (w : Bool) (bits : String) (dp cp : DownloadResult) (r : Except String String),
      dp.error.isSome = true →
      (prepare_to_download_archive w bits dp cp r).1 = Outcome.abort 1) ∧
    (∀ (w : Bool) (bits : String) (dp cp : DownloadResult) (r : Except String String),
      dp.error = none → cp.error.isSome = true →
      (prepare_to_download_archive w bits dp cp r).1 = Outcome.abort 1) ∧
    eclipseDone "x86_64" (DownloadResult.mk none (some "") ⟨[], []⟩ "u" none) =
      Outcome.crash "IndexError" := by
  refine ⟨?_, ?_, ?_, ?_, ?_, ?_, by decide⟩
  · intro res h
    simp [get_metadata_and_check_license_jetbrains, h]
  · intro u res h
    simp [checksum_downloaded, h]
  · intro arch res h
    simp [eclipseDone, h]
  · intro bits res h
    simp [get_metadata_and_check_license_arduino, h]
  · intro w bits dp cp r h
    simp [prepare_to_download_archive, h]
  · intro w bits dp cp r hd hc
    simp [prepare_to_download_archive, hd, hc]

/-- Witness for C6's amended statement: a transport error on the
JetBrains download page aborts with status 1. -/
theorem transport_error_abort_amended_witness :
    get_metadata_and_check_license_jetbrains
      (DownloadResult.mk (some "HTTP 404") none ⟨[], []⟩ "u" none) = Outcome.abort 1 :=
  transport_error_abort_amended.1
    (DownloadResult.mk (some "HTTP 404") none ⟨[], []⟩ "u" none) (by decide)

/-- C7: whenever the Arduino prepare stage emits its archive request, the
DownloadItem's url is the join of the download page's final redirected
url with the JUST DOWNLOAD button's parent href, and the page's response
cookies are attached to the same DownloadItem. -/
theorem arduino_transport_artifacts_carried :
    ∀ (bits : String) (dp cp : DownloadResult) (r : Except String String)
      (body checksum : String) (btn : Button),
      dp.error = none → cp.error = none → cp.buffer = some body →
      findArduinoChecksum bits body = some checksum →
      findJustDownloadButton dp.soup = some btn →
      (prepare_to_download_archive true bits dp cp r).1 =
        Outcome.ok [DownloadItem.mk (urljoin dp.final_url btn.parentHref)
          (some ⟨ChecksumType.md5, checksum⟩) dp.cookies false] := by
  intro bits dp cp r body checksum btn hde hce hcb hfc hbtn
  rcases dp with ⟨derr, dbuf, dsoup, dfu, dck⟩
  rcases cp with ⟨cerr, cbuf, csoup, cfu, cck⟩
  simp only at hde hce hcb hbtn
  subst hde hce hcb
  simp [prepare_to_download_archive, hfc, hbtn]

/-- Witness for C7: the concrete Arduino pages produce the archive item
joined from the final url and the button's parent href, carrying the
page cookies. -/
theorem arduino_transport_artifacts_carried_witness :
    (prepare_to_download_archive true "64"
      (DownloadResult.mk none (some "")
        ⟨[], [⟨"JUST DOWNLOAD", "/download_handler.php"⟩]⟩
        "https://www.arduino.cc/en/Main/Software" (some "session=1"))
      (DownloadResult.mk none (some "bbb arduino-1.6.5-linux64.tar.xz") ⟨[], []⟩ "u" none)
      (Except.ok "done")).1 =
      Outcome.ok [DownloadItem.mk
        (urljoin "https://www.arduino.cc/en/Main/Software" "/download_handler.php")
        (some ⟨ChecksumType.md5, "bbb"⟩) (some "session=1") false] :=
  arduino_transport_artifacts_carried "64"
    (DownloadResult.mk none (some "")
      ⟨[], [⟨"JUST DOWNLOAD", "/download_handler.php"⟩]⟩
      "https://www.arduino.cc/en/Main/Software" (some "session=1"))
    (DownloadResult.mk none (some "bbb arduino-1.6.5-linux64.tar.xz") ⟨[], []⟩ "u" none)
    (Except.ok "done") "bbb arduino-1.6.5-linux64.tar.xz" "bbb"
    ⟨"JUST DOWNLOAD", "/download_handler.php"⟩ rfl rfl rfl (by decide) (by decide)

/-- C8 counterexample: the Arduino installer constructed on the
unrecognized machine string armv7l does not hard-fail: its `__init__`
completes and selects the 64-bit url pattern by default. -/
theorem arduino_arch_default_counterexample :
    (arduinoInit 1000 (some "user") (some 1000) (fun _ => "user") [] "armv7l").bits =
      "64" := by decide

/-- C8 amended: the Eclipse resolver aborts with status 1 on a machine
architecture outside i686/x86_64, but the Arduino resolver maps every
machine other than i686 (recognized or not) to the 64-bit selection
without failing, relying on the framework's only_on_archs filtering. -/
theorem arch_selection_amended :
    (∀ arch : String, arch ≠ "i686" → arch ≠ "x86_64" →
      eclipseMd5Url arch = Outcome.abort 1) ∧
    eclipseMd5Url "i686" = Outcome.ok (DOWNLOAD_URL_PAT "" ".md5") ∧
    eclipseMd5Url "x86_64" = Outcome.ok (DOWNLOAD_URL_PAT "-x86_64" ".md5") ∧
    (∀ (euid : Nat) (uE : Option String) (sU : Option Nat) (pw : Nat → String)
       (groups : List (String × List String)) (machine : String), machine ≠ "i686" →
      (arduinoInit euid uE sU pw groups machine).bits = "64") ∧
    (∀ (euid : Nat) (uE : Option String) (sU : Option Nat) (pw : Nat → String)
       (groups : List (String × List String)),
      (arduinoInit euid uE sU pw groups "i686").bits = "32") := by
  refine ⟨?_, by decide, by decide, ?_, ?_⟩
  · intro arch h1 h2
    simp [eclipseMd5Url, h1, h2]
  · intro euid uE sU pw groups machine h
    simp [arduinoInit, h]
  · intro euid uE sU pw groups
    simp [arduinoInit]

/-- Witness for C8's amended statement: armv7l aborts Eclipse with
status 1 and selects 64 in Arduino. -/
theorem arch_selection_amended_witness :
    eclipseMd5Url "armv7l" = Outcome.abort 1 ∧
    (arduinoInit 0 none none (fun _ => "root") [] "armv7l").bits = "64" :=
  ⟨arch_selection_amended.1 "armv7l" (by decide) (by decide),
   arch_selection_amended.2.2.2.1 0 none none (fun _ => "root") [] "armv7l" (by decide)⟩

/-- C9: for every construction of the Arduino installer the considered
user is the account name of the SUDO_UID uid (uid 0 when unset): the
preceding USER-environment assignment is unconditionally overwritten, so
the result does not depend on the effective uid or on USER. -/
theorem arduino_current_user_from_sudo_uid :
    ∀ (euid : Nat) (userEnv : Option String) (sudoUid : Option Nat)
      (pw_name : Nat → String),
      arduinoCurrentUser euid userEnv sudoUid pw_name =
        some (pw_name (sudoUid.getD 0)) ∧
      arduinoCurrentUser euid userEnv sudoUid pw_name =
        arduinoCurrentUser 0 none sudoUid pw_name := by
  intro euid uE sU pw
  exact ⟨rfl, rfl⟩

/-- C10: when the user is already in the arduino group, `__init__`
requests no root access (need_root_access is the negation of membership),
the prepare stage never spawns the group worker, its pipeline outcome is
identical to the non-member case with a successful group addition, and
post_install emits no deferred logout notice (while the non-member case
emits it). -/
theorem arduino_group_member_frame :
    (∀ (euid : Nat) (uE : Option String) (sU : Option Nat) (pw : Nat → String)
       (groups : List (String × List String)) (machine : String),
      (arduinoInit euid uE sU pw groups machine).need_root_access =
        !(arduinoInit euid uE sU pw groups machine).was_in_arduino_group) ∧
    (∀ (bits : String) (dp cp : DownloadResult) (r : Except String String),
      (prepare_to_download_archive true bits dp cp r).2 = false) ∧
    (∀ (bits : String) (dp cp : DownloadResult) (r : Except String String) (out : String),
      (prepare_to_download_archive true bits dp cp r).1 =
        (prepare_to_download_archive false bits dp cp (Except.ok out)).1) ∧
    (arduinoPostInstall true).delayed_logout_notice = false ∧
    (arduinoPostInstall false).delayed_logout_notice = true := by
  refine ⟨fun _ _ _ _ _ _ => rfl, ?_, ?_, rfl, rfl⟩
  · intro bits dp cp r
    rcases dp with ⟨derr, dbuf, dsoup, dfu, dck⟩
    rcases cp with ⟨cerr, cbuf, csoup, cfu, cck⟩
    cases derr with
    | some e => rfl
    | none =>
      cases cerr with
      | some e => rfl
      | none =>
        cases cbuf with
        | none => rfl
        | some body =>
          cases hc : findArduinoChecksum bits body with
          | none => simp [prepare_to_download_archive, hc]
          | some cks =>
            cases hb : findJustDownloadButton dsoup with
            | none => simp [prepare_to_download_archive, hc, hb]
            | some btn => simp [prepare_to_download_archive, hc, hb]
  · intro bits dp cp r out
    rcases dp with ⟨derr, dbuf, dsoup, dfu, dck⟩
    rcases cp with ⟨cerr, cbuf, csoup, cfu, cck⟩
    cases derr with
    | some e => rfl
    | none =>
      cases cerr with
      | some e => rfl
      | none =>
        cases cbuf with
        | none => rfl
        | some body =>
          cases hc : findArduinoChecksum bits body with
          | none => simp [prepare_to_download_archive, hc]
          | some cks =>
            cases hb : findJustDownloadButton dsoup with
            | none => simp [prepare_to_download_archive, hc, hb]
            | some btn => simp [prepare_to_download_archive, hc, hb, add_to_group]

end UMake
